import Mathlib

/-!
Verification of the Tabular Data Gateway (`mcp_database_server.py`) and the
Document Ingestion Pipeline (`rag_multimodal_exemplo.py`).

The Gateway is embedded as pure functions over an explicit backend state.
Each `_xxx` handler of `DatabaseMCPServer` becomes a Lean function that
returns the structured result, the list of SQL statement strings submitted
to the backend (so "the backend is never invoked" is the statement that this
list is empty), and the backend state after the call.  The relational
backend itself (sqlite3 / mysql.connector) is an external collaborator; it
is modelled by a small semantic executor over an association-list of tables,
which rejects a statement whose WHERE keyword is followed by an empty
conjunction (SQL grammar requires at least one condition after WHERE).
-/

namespace Gateway

/-- Scalar values appearing in records, filters and data mappings. -/
inductive Value where
  | intV : Int → Value
  | strV : String → Value
  | nullV : Value
deriving DecidableEq, Repr

/-- A row, as the dict produced from a cursor row: column name to value. -/
abbrev Rec := List (String × Value)

/-- The two supported backends (`db_type` in the source). -/
inductive DBType where
  | sqlite
  | mysql
deriving DecidableEq, Repr

/-- Parameter placeholder: `"?"` for sqlite, `"%s"` for mysql. -/
def placeholder : DBType → String
  | .sqlite => "?"
  | .mysql => "%s"

/-- Backend state: named tables of rows, per-table column descriptors, and
the external query executor used for raw statements. -/
structure Backend where
  tables : List (String × List Rec)
  colInfo : List (String × List Rec)
  rawQuery : String → Except String (List Rec)

/-- The payload half of an operation result: the success-dict fields other
than `success` for each of the six operations. -/
inductive Payload where
  | created (message : String) (id : Nat) (table : String)
  | records (count : Nat) (recs : List Rec) (table : Option String)
  | affected (message : String) (rows : Nat) (table : String)
  | tableNames (tables : List String) (count : Nat)
  | columns (table : String) (cols : List Rec)
deriving DecidableEq, Repr

/-- A structured operation result.  Success dicts in the source carry
`"success": True` plus payload fields; error dicts carry only `"error"`. -/
structure OpResult where
  success : Option Bool
  payload : Option Payload
  error : Option String
deriving DecidableEq, Repr

/-- `{"error": msg}` -/
def errResult (msg : String) : OpResult := ⟨none, none, some msg⟩

/-- `{"success": True, ...payload fields...}` -/
def okResult (p : Payload) : OpResult := ⟨some true, some p, none⟩

/-- `", ".join(xs)` -/
def joinComma (xs : List String) : String := String.intercalate ", " xs

/-- `" AND ".join(xs)` -/
def joinAnd (xs : List String) : String := String.intercalate " AND " xs

/-- One equality condition `key = ?` (or `key = %s`). -/
def eqCondition (dbType : DBType) (key : String) : String :=
  key ++ " = " ++ placeholder dbType

/-- `INSERT INTO {table} ({columns}) VALUES ({placeholders})` -/
def insertQuery (dbType : DBType) (table : String) (data : Rec) : String :=
  "INSERT INTO " ++ table ++ " (" ++ joinComma (data.map (·.1)) ++ ") VALUES (" ++
    joinComma (List.replicate data.length (placeholder dbType)) ++ ")"

/-- `SELECT * FROM {table}` plus WHERE clause when filters are non-empty,
plus `LIMIT {limit}`. -/
def selectQuery (dbType : DBType) (table : String) (filters : Rec) (limit : Nat) : String :=
  "SELECT * FROM " ++ table ++
    (if filters.isEmpty then ""
     else " WHERE " ++ joinAnd (filters.map (fun kv => eqCondition dbType kv.1))) ++
    " LIMIT " ++ toString limit

/-- `UPDATE {table} SET {set_clause} WHERE {where_clause}` -/
def updateQuery (dbType : DBType) (table : String) (filters data : Rec) : String :=
  "UPDATE " ++ table ++ " SET " ++
    joinComma (data.map (fun kv => eqCondition dbType kv.1)) ++ " WHERE " ++
    joinAnd (filters.map (fun kv => eqCondition dbType kv.1))

/-- A row satisfies an equality-AND filter mapping. -/
def recMatches (filters : Rec) (r : Rec) : Bool :=
  filters.all (fun kv => List.lookup kv.1 r == some kv.2)

/-- Apply the SET mapping to one row: each column named in `data` gets its
new value; other columns keep theirs. -/
def applyData (data : Rec) (r : Rec) : Rec :=
  r.map (fun kv =>
    match List.lookup kv.1 data with
    | some v => (kv.1, v)
    | none => kv)

/-- Replace one table's rows in the backend's table list. -/
def replaceTable (ts : List (String × List Rec)) (t : String) (recs : List Rec) :
    List (String × List Rec) :=
  ts.map (fun kv => if kv.1 = t then (kv.1, recs) else kv)

/-- Semantic executor for the generated INSERT statement. -/
def backendInsert (b : Backend) (table : String) (data : Rec) :
    Except String (Backend × Nat) :=
  match List.lookup table b.tables with
  | none => .error ("no such table: " ++ table)
  | some recs =>
      .ok ({ b with tables := replaceTable b.tables table (recs ++ [data]) },
           recs.length + 1)

/-- Semantic executor for the generated SELECT statement. -/
def backendSelect (b : Backend) (table : String) (filters : Rec) (limit : Nat) :
    Except String (List Rec) :=
  match List.lookup table b.tables with
  | none => .error ("no such table: " ++ table)
  | some recs => .ok ((recs.filter (recMatches filters)).take limit)

/-- Semantic executor for the generated UPDATE statement.  A WHERE keyword
followed by an empty conjunction is a SQL syntax error, rejected by the
backend's parser before touching any row. -/
def backendUpdate (b : Backend) (table : String) (filters data : Rec) :
    Except String (Backend × Nat) :=
  if filters.isEmpty then .error "incomplete input"
  else
    match List.lookup table b.tables with
    | none => .error ("no such table: " ++ table)
    | some recs =>
        let affected := (recs.filter (recMatches filters)).length
        let newRecs := recs.map (fun r => if recMatches filters r then applyData data r else r)
        .ok ({ b with tables := replaceTable b.tables table newRecs }, affected)

/-- `_create_record`: build the INSERT, execute it, return the new id.
Second component: the statements submitted to the backend. -/
def createRecord (dbType : DBType) (b : Backend) (table : String) (data : Rec) :
    OpResult × List String × Backend :=
  let q := insertQuery dbType table data
  match backendInsert b table data with
  | .ok (b', id) =>
      (okResult (.created "Registro criado com sucesso" id table), [q], b')
  | .error e => (errResult ("Erro ao criar registro: " ++ e), [q], b)

/-- `_read_records`: build the SELECT with optional WHERE, execute it. -/
def readRecords (dbType : DBType) (b : Backend) (table : String) (filters : Rec)
    (limit : Nat) : OpResult × List String × Backend :=
  let q := selectQuery dbType table filters limit
  match backendSelect b table filters limit with
  | .ok rows => (okResult (.records rows.length rows (some table)), [q], b)
  | .error e => (errResult ("Erro ao ler registros: " ++ e), [q], b)

/-- `_update_record`: build the UPDATE, execute it, return rows affected. -/
def updateRecord (dbType : DBType) (b : Backend) (table : String) (filters data : Rec) :
    OpResult × List String × Backend :=
  let q := updateQuery dbType table filters data
  match backendUpdate b table filters data with
  | .ok (b', n) =>
      (okResult (.affected "Registro atualizado com sucesso" n table), [q], b')
  | .error e => (errResult ("Erro ao atualizar registro: " ++ e), [q], b)

/-- `str.upper()` on one character, over the ASCII range. -/
def asciiUpper (c : Char) : Char :=
  if 97 ≤ c.toNat ∧ c.toNat ≤ 122 then Char.ofNat (c.toNat - 32) else c

/-- The whitespace test of `str.strip()`, over the ASCII whitespace
characters. -/
def isSpaceChar (c : Char) : Bool :=
  c == ' ' || c == '\t' || c == '\n' || c == '\r'

/-- `str.strip()`: drop leading and trailing whitespace. -/
def stripStr (s : String) : String :=
  ⟨((s.data.dropWhile isSpaceChar).reverse.dropWhile isSpaceChar).reverse⟩

/-- `str.upper()`. -/
def upperStr (s : String) : String :=
  ⟨s.data.map asciiUpper⟩

/-- `str.startswith(pre)`. -/
def startsWithStr (s pre : String) : Bool :=
  pre.data.isPrefixOf s.data

/-- `str.endswith(suf)`. -/
def endsWithStr (s suf : String) : Bool :=
  suf.data.isSuffixOf s.data

/-- The prefix gate of `_execute_query`:
`query.strip().upper().startswith("SELECT")`. -/
def isSelectQuery (q : String) : Bool :=
  startsWithStr (upperStr (stripStr q)) "SELECT"

/-- `_execute_query`: reject non-SELECT text before the backend; otherwise
pass the original string verbatim to the backend executor. -/
def executeQuery (b : Backend) (query : String) : OpResult × List String :=
  if isSelectQuery query then
    match b.rawQuery query with
    | .ok rows => (okResult (.records rows.length rows none), [query])
    | .error e => (errResult ("Erro ao executar query: " ++ e), [query])
  else
    (errResult "Apenas queries SELECT são permitidas por segurança", [])

/-- Catalog statement text for `_list_tables`. -/
def listTablesQuery : DBType → String
  | .sqlite => "SELECT name FROM sqlite_master WHERE type='table'"
  | .mysql => "SHOW TABLES"

/-- `_list_tables`: catalog introspection; names of the backend's tables. -/
def listTables (dbType : DBType) (b : Backend) : OpResult × List String :=
  let names := b.tables.map (·.1)
  (okResult (.tableNames names names.length), [listTablesQuery dbType])

/-- Catalog statement text for `_describe_table`. -/
def describeQuery (dbType : DBType) (table : String) : String :=
  match dbType with
  | .sqlite => "PRAGMA table_info(" ++ table ++ ")"
  | .mysql => "DESCRIBE " ++ table

/-- `_describe_table`: column metadata.  sqlite's PRAGMA yields an empty
row set for an unknown table; mysql's DESCRIBE raises. -/
def describeTable (dbType : DBType) (b : Backend) (table : String) :
    OpResult × List String :=
  let q := describeQuery dbType table
  match dbType with
  | .sqlite =>
      (okResult (.columns table ((List.lookup table b.colInfo).getD [])), [q])
  | .mysql =>
      match List.lookup table b.colInfo with
      | some cols => (okResult (.columns table cols), [q])
      | none => (errResult ("Erro ao descrever tabela: no such table: " ++ table), [q])

/-- The argument dict supplied to `call_tool`, with each known key optional. -/
structure Args where
  table : Option String := none
  data : Option Rec := none
  filters : Option Rec := none
  limit : Option Nat := none
  query : Option String := none
deriving Repr

/-- The fixed operation names registered on the server. -/
def knownToolNames : List String :=
  ["create_record", "read_records", "update_record",
   "execute_query", "list_tables", "describe_table"]

/-- `call_tool`: returns the fixed not-connected error when the connection
is absent, dispatches on the operation name otherwise, and converts a
missing required argument (Python's `KeyError`) into an error result.
Second component: the SQL statements submitted to the backend during the
call; third: the connection state afterwards. -/
def callTool (dbType : DBType) (conn : Option Backend) (name : String)
    (args : Args) : OpResult × List String × Option Backend :=
  match conn with
  | none => (errResult "Não conectado ao banco de dados", [], none)
  | some b =>
      if name = "create_record" then
        match args.table with
        | none => (errResult "'table'", [], some b)
        | some t =>
            match args.data with
            | none => (errResult "'data'", [], some b)
            | some d =>
                ((createRecord dbType b t d).1, (createRecord dbType b t d).2.1,
                 some (createRecord dbType b t d).2.2)
      else if name = "read_records" then
        match args.table with
        | none => (errResult "'table'", [], some b)
        | some t =>
            ((readRecords dbType b t (args.filters.getD []) (args.limit.getD 100)).1,
             (readRecords dbType b t (args.filters.getD []) (args.limit.getD 100)).2.1,
             some (readRecords dbType b t (args.filters.getD []) (args.limit.getD 100)).2.2)
      else if name = "update_record" then
        match args.table with
        | none => (errResult "'table'", [], some b)
        | some t =>
            match args.filters with
            | none => (errResult "'filters'", [], some b)
            | some f =>
                match args.data with
                | none => (errResult "'data'", [], some b)
                | some d =>
                    ((updateRecord dbType b t f d).1, (updateRecord dbType b t f d).2.1,
                     some (updateRecord dbType b t f d).2.2)
      else if name = "execute_query" then
        match args.query with
        | none => (errResult "'query'", [], some b)
        | some q =>
            ((executeQuery b q).1, (executeQuery b q).2, some b)
      else if name = "list_tables" then
        ((listTables dbType b).1, (listTables dbType b).2, some b)
      else if name = "describe_table" then
        match args.table with
        | none => (errResult "'table'", [], some b)
        | some t =>
            ((describeTable dbType b t).1, (describeTable dbType b t).2, some b)
      else
        (errResult ("Ferramenta '" ++ name ++ "' não encontrada"), [], some b)

end Gateway

/-!
Document Ingestion Pipeline (`rag_multimodal_exemplo.py`).

Each per-document extraction stage in the source wraps a loop in a
`try/except` that logs the exception and falls through to `return` the
accumulator.  A stage is therefore embedded as a function of the sequence
of per-item outcomes (each `Except`): the result is the list of items
produced before the first raised exception.  The enclosing open call
(`fitz.open` / `pdfplumber.open`) may itself fail, yielding no items.
Text extraction (`PyPDFLoader.load` plus the metadata loop) is
all-or-nothing: any exception yields `[]`.

`create_documents_with_metadata` is embedded parametrically in the
embedding function `embed`; `json.dumps` serialization of the metadata
dict is external, so metadata is kept as the structured value handed to it.
-/

namespace Ingest

/-- A structured value as handed to the JSON serializer. -/
inductive JVal where
  | jstr : String → JVal
  | jnum : Nat → JVal
  | jobj : List (String × JVal) → JVal
  | jarr : List JVal → JVal

/-- One LangChain text document: page content plus the `page` metadata
entry when present (`doc.metadata.get('page', 0)` in the source). -/
structure TextDoc where
  page_content : String
  page : Option Nat
deriving DecidableEq, Repr

/-- One entry of `images_data` built by `extract_images_from_pdf`. -/
structure ImageData where
  page : Nat
  image_index : Nat
  image_path : String
  image_b64 : String
  description : String
  source_pdf : String
deriving DecidableEq, Repr

/-- One entry of `tables_data` built by `extract_tables_from_pdf`. -/
structure TableData where
  page : Nat
  table_index : Nat
  table_path : String
  table_json : List (List (String × String))
  table_csv : String
  description : String
  source_pdf : String
  rows : Nat
  columns : Nat
deriving DecidableEq, Repr

/-- The per-document result of `process_pdf`. -/
structure PdfData where
  pdf_name : String
  text_documents : List TextDoc
  images : List ImageData
  tables : List TableData
deriving DecidableEq, Repr

/-- Run an accumulate-in-a-try loop: items produced before the first raised
exception are kept; the exception stops the loop and the accumulator is
returned as-is. -/
def runStage {α : Type} : List (Except String α) → List α
  | [] => []
  | .ok a :: rest => a :: runStage rest
  | .error _ :: _ => []

/-- `extract_images_from_pdf`: an open failure yields no images; otherwise
the loop accumulates until an item raises. -/
def extractImages (opening : Except String (List (Except String ImageData))) :
    List ImageData :=
  match opening with
  | .error _ => []
  | .ok steps => runStage steps

/-- `extract_tables_from_pdf`: same failure shape as image extraction. -/
def extractTables (opening : Except String (List (Except String TableData))) :
    List TableData :=
  match opening with
  | .error _ => []
  | .ok steps => runStage steps

/-- `extract_text_from_pdf`: any exception yields `[]`. -/
def extractText (r : Except String (List TextDoc)) : List TextDoc :=
  match r with
  | .ok ds => ds
  | .error _ => []

deriving instance DecidableEq for Except

/-- The extraction outcomes for one source document. -/
structure PdfInput where
  pdf_name : String
  textResult : Except String (List TextDoc)
  imageSteps : Except String (List (Except String ImageData))
  tableSteps : Except String (List (Except String TableData))
deriving DecidableEq, Repr

/-- `process_pdf`: run the three stages in order; each stage's outcome is
independent of the others. -/
def processPdf (inp : PdfInput) : PdfData :=
  { pdf_name := inp.pdf_name
    text_documents := extractText inp.textResult
    images := extractImages inp.imageSteps
    tables := extractTables inp.tableSteps }

/-- `process_all_pdfs`: every document of the batch is processed. -/
def processAllPdfs (inps : List PdfInput) : List PdfData :=
  inps.map processPdf

/-- One row prepared for the vector store by
`create_documents_with_metadata`, parametric in the embedding type. -/
structure StoredDoc (α : Type) where
  content : String
  content_type : String
  source_pdf : String
  page : Nat
  embedding : α
  image_b64 : Option String := none
  image_path : Option String := none
  table_json : Option JVal := none
  table_csv : Option String := none
  table_path : Option String := none
  metadata : JVal

/-- The structured JSON value for one extracted table's rows
(`df.to_dict(orient='records')`, as handed to `json.dumps`). -/
def tableRowsJson (rows : List (List (String × String))) : JVal :=
  .jarr (rows.map (fun r => .jobj (r.map (fun kv => (kv.1, JVal.jstr kv.2)))))

/-- The store row for one text document. -/
def textStoredDoc {α : Type} (embed : String → α) (pdfName : String)
    (d : TextDoc) : StoredDoc α :=
  { content := d.page_content
    content_type := "text"
    source_pdf := pdfName
    page := d.page.getD 0
    embedding := embed d.page_content
    metadata := .jobj [("type", .jstr "text"), ("source", .jstr pdfName),
                       ("page", .jnum (d.page.getD 0))] }

/-- The store row for one extracted image: the embedding is computed from
the generated description, which is also the row's content. -/
def imageStoredDoc {α : Type} (embed : String → α) (pdfName : String)
    (img : ImageData) : StoredDoc α :=
  { content := img.description
    content_type := "image"
    source_pdf := pdfName
    page := img.page
    embedding := embed img.description
    image_b64 := some img.image_b64
    image_path := some img.image_path
    metadata := .jobj [("type", .jstr "image"), ("source", .jstr pdfName),
                       ("page", .jnum img.page),
                       ("image_path", .jstr img.image_path),
                       ("image_b64", .jstr img.image_b64)] }

/-- The store row for one extracted table: the embedding is computed from
the generated description alone, while the row's content is the
description followed by a newline and the CSV text. -/
def tableStoredDoc {α : Type} (embed : String → α) (pdfName : String)
    (tb : TableData) : StoredDoc α :=
  { content := tb.description ++ "\n" ++ tb.table_csv
    content_type := "table"
    source_pdf := pdfName
    page := tb.page
    embedding := embed tb.description
    table_json := some (tableRowsJson tb.table_json)
    table_csv := some tb.table_csv
    table_path := some tb.table_path
    metadata := .jobj [("type", .jstr "table"), ("source", .jstr pdfName),
                       ("page", .jnum tb.page),
                       ("table_path", .jstr tb.table_path),
                       ("rows", .jnum tb.rows),
                       ("columns", .jnum tb.columns)] }

/-- `create_documents_with_metadata`: for each processed PDF, append the
text rows, then the image rows, then the table rows. -/
def createDocumentsWithMetadata {α : Type} (embed : String → α)
    (pdfs : List PdfData) : List (StoredDoc α) :=
  pdfs.flatMap (fun pd =>
    pd.text_documents.map (textStoredDoc embed pd.pdf_name) ++
    pd.images.map (imageStoredDoc embed pd.pdf_name) ++
    pd.tables.map (tableStoredDoc embed pd.pdf_name))

/-- Squared euclidean distance between two embedding vectors (the vector
store ranks results by distance to the query embedding). -/
def sqDist (a b : List Int) : Int :=
  ((a.zip b).map (fun p => (p.1 - p.2) * (p.1 - p.2))).sum

/-- Insert one row into a list kept sorted by distance to the query. -/
def insertByDist (q : List Int) (d : StoredDoc (List Int)) :
    List (StoredDoc (List Int)) → List (StoredDoc (List Int))
  | [] => [d]
  | e :: es =>
      if sqDist d.embedding q ≤ sqDist e.embedding q then d :: e :: es
      else e :: insertByDist q d es

/-- Rank the whole store by distance to the query embedding. -/
def sortByDist (q : List Int) (store : List (StoredDoc (List Int))) :
    List (StoredDoc (List Int)) :=
  store.foldr (insertByDist q) []

/-- `search`: embed the query, take the `k` nearest rows, then filter
post-hoc to the requested `content_type` when one is supplied. -/
def search (store : List (StoredDoc (List Int))) (embed : String → List Int)
    (query : String) (k : Nat) (content_type : Option String) :
    List (StoredDoc (List Int)) :=
  let queryEmbedding := embed query
  let results := (sortByDist queryEmbedding store).take k
  match content_type with
  | some ct => results.filter (fun d => d.content_type == ct)
  | none => results

/-- The dataframe built by `pd.DataFrame(table[1:], columns=table[0])`:
the first grid row becomes the column names, the rest become the rows. -/
structure DataFrame where
  columns : List String
  rows : List (List String)
deriving DecidableEq, Repr

/-- `_describe_table(df, headers)`: row count is `len(df)`, column count is
`len(df.columns)`, at most the first 5 header names are listed, and `"..."`
is appended when there are more than 5 headers. -/
def describeTableDf (df : DataFrame) (headers : List String) : String :=
  "Tabela com " ++ toString df.rows.length ++ " linhas e " ++
    toString df.columns.length ++ " colunas. Colunas: " ++
    String.intercalate ", " (headers.take 5) ++
    (if headers.length > 5 then "..." else "")

/-- The description generated for one non-empty extracted grid, as
`extract_tables_from_pdf` composes it: build the dataframe from the grid,
then describe it against the header row. -/
def describeGrid : List (List String) → Option String
  | [] => none
  | hdr :: rest => some (describeTableDf ⟨hdr, rest⟩ hdr)

/-- Modelled from the spec claim's words, for comparison with
`describeGrid`: a description stating the number of grid rows excluding
the header row, the column count, the first 5 column names, and a
truncation marker exactly when the grid has more than 5 columns. -/
def claimedGridDescription : List (List String) → Option String
  | [] => none
  | hdr :: rest =>
      some ("Tabela com " ++ toString rest.length ++ " linhas e " ++
        toString hdr.length ++ " colunas. Colunas: " ++
        String.intercalate ", " (hdr.take 5) ++
        (if hdr.length > 5 then "..." else ""))

end Ingest

open Gateway Ingest

/-- A small concrete backend used to instantiate the gateway theorems. -/
def sampleBackend : Backend :=
  { tables := [("users", [[("id", Value.intV 1), ("name", Value.strV "Ana")]])]
    colInfo := []
    rawQuery := fun _ => .ok [] }

/-- C1: a raw-query string whose trimmed, case-insensitive text does not
start with SELECT yields the permission-error result and submits no
statement to the backend; a string that does start with SELECT is
submitted to the backend verbatim. -/
theorem raw_query_select_gate (b : Backend) (q : String) :
    (isSelectQuery q = false →
      executeQuery b q =
        (errResult "Apenas queries SELECT são permitidas por segurança", [])) ∧
    (isSelectQuery q = true → (executeQuery b q).2 = [q]) := by
  constructor
  · intro h
    simp [executeQuery, h]
  · intro h
    cases hr : b.rawQuery q <;> simp [executeQuery, h, hr]

/-- Witness for C1: `DROP TABLE users` is rejected with no backend call,
while a SELECT (even lowercase, with leading whitespace) reaches the
backend verbatim. -/
theorem raw_query_select_gate_witness :
    executeQuery sampleBackend "DROP TABLE users" =
      (errResult "Apenas queries SELECT são permitidas por segurança", []) ∧
    (executeQuery sampleBackend " select * from users").2 =
      [" select * from users"] :=
  ⟨(raw_query_select_gate sampleBackend "DROP TABLE users").1 (by decide),
   (raw_query_select_gate sampleBackend " select * from users").2 (by decide)⟩

/-- C2: dispatching any operation name outside the fixed registered set
returns the structured not-found error, submits no statement to the
backend, and leaves the connection untouched. -/
theorem unknown_tool_rejected (dbType : DBType) (b : Backend) (args : Args)
    (name : String) (h : name ∉ knownToolNames) :
    callTool dbType (some b) name args =
      (errResult ("Ferramenta '" ++ name ++ "' não encontrada"), [], some b) := by
  simp only [knownToolNames, List.mem_cons, List.not_mem_nil, or_false,
    not_or] at h
  obtain ⟨h1, h2, h3, h4, h5, h6⟩ := h
  simp [callTool, h1, h2, h3, h4, h5, h6]

/-- Witness for C2: `delete` is not a reachable operation. -/
theorem unknown_tool_rejected_witness :
    callTool DBType.sqlite (some sampleBackend) "delete" {} =
      (errResult "Ferramenta 'delete' não encontrada", [], some sampleBackend) :=
  unknown_tool_rejected DBType.sqlite sampleBackend {} "delete" (by decide)

/-- C6: with the connection absent, every operation name and argument set
yields the same fixed not-connected error, with no backend statement. -/
theorem not_connected_fixed_error (dbType : DBType) (name : String)
    (args : Args) :
    callTool dbType none name args =
      (errResult "Não conectado ao banco de dados", [], none) := rfl

/-- C5: an update whose non-empty equality-AND filter matches no row of the
table reports success with zero rows affected. -/
theorem update_zero_match_success (dbType : DBType) (b : Backend) (t : String)
    (filters data : Rec) (recs : List Rec)
    (hne : filters ≠ [])
    (ht : List.lookup t b.tables = some recs)
    (hnone : ∀ r ∈ recs, recMatches filters r = false) :
    (updateRecord dbType b t filters data).1 =
      okResult (.affected "Registro atualizado com sucesso" 0 t) := by
  have hfe : filters.isEmpty = false := by
    cases filters with
    | nil => exact absurd rfl hne
    | cons a l => rfl
  have hfilter : recs.filter (recMatches filters) = [] := by
    simp only [List.filter_eq_nil_iff]
    intro r hr
    simp [hnone r hr]
  simp [updateRecord, backendUpdate, hfe, ht, hfilter]

/-- Witness for C5: filtering `users` on `id = 2` matches no row; the
update succeeds with zero rows affected. -/
theorem update_zero_match_success_witness :
    (updateRecord DBType.sqlite sampleBackend "users"
        [("id", Value.intV 2)] [("age", Value.intV 31)]).1 =
      okResult (.affected "Registro atualizado com sucesso" 0 "users") :=
  update_zero_match_success DBType.sqlite sampleBackend "users"
    [("id", Value.intV 2)] [("age", Value.intV 31)]
    [[("id", Value.intV 1), ("name", Value.strV "Ana")]]
    (by decide) rfl (by decide)

/-- C10: an update with an empty filters mapping produces a statement
ending in a WHERE keyword followed by an empty conjunction; the backend
rejects it, the gateway returns an error result, and no row changes —
whereas a read with empty filters simply builds a statement with no WHERE
clause at all. -/
theorem update_empty_filters_rejected (dbType : DBType) (b : Backend)
    (t : String) (data : Rec) (_hd : data ≠ []) :
    (updateRecord dbType b t [] data).1 =
      errResult "Erro ao atualizar registro: incomplete input" ∧
    (updateRecord dbType b t [] data).2.2 = b ∧
    endsWithStr (updateQuery dbType t [] data) "WHERE " = true ∧
    (∀ limit : Nat, selectQuery dbType t [] limit =
      "SELECT * FROM " ++ t ++ " LIMIT " ++ toString limit) := by
  refine ⟨?_, ?_, ?_, ?_⟩
  · simp [updateRecord, backendUpdate]
  · simp [updateRecord, backendUpdate]
  · simp [updateQuery, joinAnd, endsWithStr, List.isSuffixOf,
      String.intercalate]
  · intro limit
    simp [selectQuery, String.append_empty]

/-- Witness for C10: concrete empty-filters update is rejected and the
read-side statement for empty filters carries no WHERE clause. -/
theorem update_empty_filters_rejected_witness :
    (updateRecord DBType.sqlite sampleBackend "users" []
        [("age", Value.intV 31)]).1 =
      errResult "Erro ao atualizar registro: incomplete input" ∧
    selectQuery DBType.sqlite "users" [] 100 = "SELECT * FROM users LIMIT 100" :=
  ⟨(update_empty_filters_rejected DBType.sqlite sampleBackend "users"
      [("age", Value.intV 31)] (by decide)).1,
   ((update_empty_filters_rejected DBType.sqlite sampleBackend "users"
      [("age", Value.intV 31)] (by decide)).2.2.2 100).trans (by decide)⟩

/-- The field discipline of an error dict: only `error` is set. -/
def isErrShape (r : OpResult) : Prop :=
  r.success = none ∧ r.payload = none ∧ r.error.isSome

/-- The field discipline of a success dict: `success = true`, a payload,
no error. -/
def isOkShape (r : OpResult) : Prop :=
  r.success = some true ∧ r.payload.isSome ∧ r.error = none

theorem isErrShape_errResult (m : String) : isErrShape (errResult m) := by
  simp [isErrShape, errResult]

theorem isOkShape_okResult (p : Payload) : isOkShape (okResult p) := by
  simp [isOkShape, okResult]

/-- Every result built by the gateway is either an error dict or a success
dict. -/
theorem createRecord_shape (dbType : DBType) (b : Backend) (t : String)
    (d : Rec) :
    isErrShape (createRecord dbType b t d).1 ∨
    isOkShape (createRecord dbType b t d).1 := by
  cases h : backendInsert b t d with
  | ok v => exact .inr (by simp [createRecord, h, isOkShape_okResult])
  | error e => exact .inl (by simp [createRecord, h, isErrShape_errResult])

theorem readRecords_shape (dbType : DBType) (b : Backend) (t : String)
    (filters : Rec) (limit : Nat) :
    isErrShape (readRecords dbType b t filters limit).1 ∨
    isOkShape (readRecords dbType b t filters limit).1 := by
  cases h : backendSelect b t filters limit with
  | ok v => exact .inr (by simp [readRecords, h, isOkShape_okResult])
  | error e => exact .inl (by simp [readRecords, h, isErrShape_errResult])

theorem updateRecord_shape (dbType : DBType) (b : Backend) (t : String)
    (f d : Rec) :
    isErrShape (updateRecord dbType b t f d).1 ∨
    isOkShape (updateRecord dbType b t f d).1 := by
  cases h : backendUpdate b t f d with
  | ok v => exact .inr (by simp [updateRecord, h, isOkShape_okResult])
  | error e => exact .inl (by simp [updateRecord, h, isErrShape_errResult])

theorem executeQuery_shape (b : Backend) (q : String) :
    isErrShape (executeQuery b q).1 ∨ isOkShape (executeQuery b q).1 := by
  by_cases h : isSelectQuery q
  · cases hr : b.rawQuery q with
    | ok v => exact .inr (by simp [executeQuery, h, hr, isOkShape_okResult])
    | error e => exact .inl (by simp [executeQuery, h, hr, isErrShape_errResult])
  · exact .inl (by simp [executeQuery, h, isErrShape_errResult])

theorem describeTable_shape (dbType : DBType) (b : Backend) (t : String) :
    isErrShape (describeTable dbType b t).1 ∨
    isOkShape (describeTable dbType b t).1 := by
  cases dbType with
  | sqlite => exact .inr (isOkShape_okResult _)
  | mysql =>
      cases h : List.lookup t b.colInfo with
      | some cols => exact .inr (by simp [describeTable, h, isOkShape_okResult])
      | none => exact .inl (by simp [describeTable, h, isErrShape_errResult])

theorem callTool_shape (dbType : DBType) (conn : Option Backend)
    (name : String) (args : Args) :
    isErrShape (callTool dbType conn name args).1 ∨
    isOkShape (callTool dbType conn name args).1 := by
  cases conn with
  | none => exact .inl (isErrShape_errResult _)
  | some b =>
      simp only [callTool]
      repeat' split
      all_goals
        first
          | exact .inl (isErrShape_errResult _)
          | exact .inr (isOkShape_okResult _)
          | exact createRecord_shape ..
          | exact readRecords_shape ..
          | exact updateRecord_shape ..
          | exact executeQuery_shape ..
          | exact describeTable_shape ..

/-- The field discipline of the two result shapes. -/
theorem result_fields_of_shape (r : OpResult)
    (h : isErrShape r ∨ isOkShape r) :
    ((r.payload.isSome ∧ r.error = none) ∨ (r.payload = none ∧ r.error.isSome)) ∧
    (r.payload.isSome → r.success = some true) ∧
    (r.error.isSome → r.success = none) := by
  rcases h with ⟨h1, h2, h3⟩ | ⟨h1, h2, h3⟩ <;> simp [h1, h2, h3]

/-- C3 (amended): every gateway result populates exactly one of payload
and error; the payload case carries `success = true`, while the error case
carries no success field at all. -/
theorem result_exactly_one_of_payload_error (dbType : DBType)
    (conn : Option Backend) (name : String) (args : Args) :
    (((callTool dbType conn name args).1.payload.isSome ∧
      (callTool dbType conn name args).1.error = none) ∨
     ((callTool dbType conn name args).1.payload = none ∧
      (callTool dbType conn name args).1.error.isSome)) ∧
    ((callTool dbType conn name args).1.payload.isSome →
      (callTool dbType conn name args).1.success = some true) ∧
    ((callTool dbType conn name args).1.error.isSome →
      (callTool dbType conn name args).1.success = none) :=
  result_fields_of_shape _ (callTool_shape dbType conn name args)

/-- Witness for the amended C3: the rejected raw query's result has an
error and no success field. -/
theorem result_exactly_one_witness :
    (callTool DBType.sqlite (some sampleBackend) "execute_query"
        { query := some "DROP TABLE users" }).1.success = none :=
  (result_exactly_one_of_payload_error DBType.sqlite (some sampleBackend)
    "execute_query" { query := some "DROP TABLE users" }).2.2 (by decide)

/-- C3 counterexample: the claim states an error result carries
`success = false`; the rejected raw query returns an error result whose
success field is absent, not false. -/
theorem result_success_false_counterexample :
    (executeQuery sampleBackend "DROP TABLE users").1.error.isSome = true ∧
    ¬ (executeQuery sampleBackend "DROP TABLE users").1.success = some false := by
  constructor
  · decide
  · decide

/-- Concrete extraction samples used to instantiate the pipeline
theorems. -/
def textSample : TextDoc :=
  { page_content := "texto da página", page := some 1 }

def imageSample : ImageData :=
  { page := 1
    image_index := 1
    image_path := "pdf_images/doc_page1_img1.png"
    image_b64 := "aW1n"
    description := "uma imagem extraída"
    source_pdf := "doc.pdf" }

def tableSample : TableData :=
  { page := 1
    table_index := 1
    table_path := "pdf_tables/doc_page1_table1.csv"
    table_json := [[("a", "1"), ("b", "2")]]
    table_csv := "a,b\n1,2\n"
    description := "Tabela com 1 linhas e 2 colunas. Colunas: a, b"
    source_pdf := "doc.pdf"
    rows := 1
    columns := 2 }

def mixedPdf : PdfData :=
  { pdf_name := "doc.pdf"
    text_documents := [textSample]
    images := [imageSample]
    tables := [tableSample] }

/-- C4 counterexample: with the identity embedding, the stored table unit
has `embedding = description` while `content = description ++ newline ++
csv`, so `embedding = embed content` fails for table units. -/
theorem embedding_equals_embed_content_counterexample :
    ¬ (∀ d ∈ createDocumentsWithMetadata (fun s => s) [mixedPdf],
        d.embedding = (fun s : String => s) d.content) := by
  decide

/-- C4 (amended): text and image units are embedded from their `content`
fields; a table unit is embedded from its generated description alone,
while its `content` is that description followed by a newline and the CSV
serialization. -/
theorem embedding_source_by_modality {α : Type} (embed : String → α)
    (pdfs : List PdfData) :
    ∀ d ∈ createDocumentsWithMetadata embed pdfs,
      (d.content_type = "text" → d.embedding = embed d.content) ∧
      (d.content_type = "image" → d.embedding = embed d.content) ∧
      (d.content_type = "table" →
        ∃ desc csv, d.embedding = embed desc ∧
          d.content = desc ++ "\n" ++ csv) := by
  intro d hd
  simp only [createDocumentsWithMetadata, List.mem_flatMap, List.mem_append,
    List.mem_map] at hd
  obtain ⟨pd, _, hcase⟩ := hd
  rcases hcase with (⟨t, _, rfl⟩ | ⟨i, _, rfl⟩) | ⟨tb, _, rfl⟩
  · exact ⟨fun _ => rfl, fun h => by simp [textStoredDoc] at h,
      fun h => by simp [textStoredDoc] at h⟩
  · exact ⟨fun h => by simp [imageStoredDoc] at h, fun _ => rfl,
      fun h => by simp [imageStoredDoc] at h⟩
  · exact ⟨fun h => by simp [tableStoredDoc] at h,
      fun h => by simp [tableStoredDoc] at h,
      fun _ => ⟨tb.description, tb.table_csv, rfl, rfl⟩⟩

/-- Witness for the amended C4: the sample image unit's embedding is the
embedding of its content. -/
theorem embedding_source_by_modality_witness :
    (imageStoredDoc (fun s : String => s) "doc.pdf" imageSample).embedding =
      (fun s : String => s)
        (imageStoredDoc (fun s : String => s) "doc.pdf" imageSample).content :=
  (embedding_source_by_modality (fun s => s) [mixedPdf] _
    (by simp [createDocumentsWithMetadata, mixedPdf])).2.1 rfl

/-- A stage loop that raises after producing some units returns exactly
the units accumulated before the failure. -/
theorem runStage_append_error {α : Type} (good : List α) (err : String)
    (rest : List (Except String α)) :
    runStage (good.map Except.ok ++ Except.error err :: rest) = good := by
  induction good with
  | nil => rfl
  | cons a l ih => simp [runStage, ih]

/-- A document whose image stage raises after its first image. -/
def failingInput : PdfInput :=
  { pdf_name := "doc.pdf"
    textResult := .ok [textSample]
    imageSteps := .ok [.ok imageSample, .error "boom"]
    tableSteps := .ok [.ok tableSample] }

/-- C7 counterexample: an image-stage failure raised after one image was
already extracted yields that one-element list, not an empty list. -/
theorem stage_failure_empty_list_counterexample :
    failingInput.imageSteps = .ok [.ok imageSample, .error "boom"] ∧
    (processPdf failingInput).images = [imageSample] ∧
    (processPdf failingInput).images ≠ [] := by
  refine ⟨rfl, rfl, ?_⟩
  decide

/-- C7 (amended): an image-stage failure yields the units extracted before
the failure (empty when the failure precedes the first unit); it does not
affect the text or table stages of the same document, the document still
participates in the batch, its text units are still persisted, and a
text-stage failure yields an empty list. -/
theorem stage_failure_partial_and_independent {α : Type} (embed : String → α)
    (inps : List PdfInput) (inp : PdfInput) (hin : inp ∈ inps)
    (good : List ImageData) (err : String)
    (rest : List (Except String ImageData))
    (himg : inp.imageSteps =
      .ok (good.map Except.ok ++ Except.error err :: rest)) :
    (processPdf inp).images = good ∧
    (processPdf inp).text_documents = extractText inp.textResult ∧
    (processPdf inp).tables = extractTables inp.tableSteps ∧
    processPdf inp ∈ processAllPdfs inps ∧
    (∀ e, inp.textResult = .error e → (processPdf inp).text_documents = []) ∧
    (∀ td ∈ (processPdf inp).text_documents,
      ∃ d ∈ createDocumentsWithMetadata embed (processAllPdfs inps),
        d.content = td.page_content ∧ d.content_type = "text" ∧
        d.source_pdf = inp.pdf_name) := by
  refine ⟨?_, rfl, rfl, List.mem_map_of_mem _ hin, ?_, ?_⟩
  · simp [processPdf, extractImages, himg, runStage_append_error]
  · intro e he
    simp [processPdf, extractText, he]
  · intro td htd
    refine ⟨textStoredDoc embed inp.pdf_name td, ?_, rfl, rfl, rfl⟩
    refine List.mem_flatMap.mpr ⟨processPdf inp, List.mem_map_of_mem _ hin, ?_⟩
    simp only [List.mem_append, List.mem_map]
    exact Or.inl (Or.inl ⟨td, htd, rfl⟩)

/-- Witness for the amended C7: the failing sample document keeps the
image extracted before the failure. -/
theorem stage_failure_partial_witness :
    (processPdf failingInput).images = [imageSample] :=
  (stage_failure_partial_and_independent (fun s : String => s) [failingInput]
    failingInput (List.mem_singleton_self _) [imageSample] "boom" [] rfl).1

/-- C8: when a content type is requested, every unit returned by `search`
has that content type (the top-k result set is filtered post-hoc). -/
theorem search_content_type_filter (store : List (StoredDoc (List Int)))
    (embed : String → List Int) (query : String) (k : Nat) (ct : String) :
    ∀ d ∈ search store embed query k (some ct), d.content_type = ct := by
  intro d hd
  simp only [search, List.mem_filter] at hd
  simpa using hd.2

/-- A concrete embedding function for the search witness. -/
def intEmbed : String → List Int := fun s => [Int.ofNat s.length]

/-- Witness for C8 on a one-unit store. -/
theorem search_content_type_filter_witness :
    (imageStoredDoc intEmbed "doc.pdf" imageSample).content_type = "image" :=
  search_content_type_filter
    [imageStoredDoc intEmbed "doc.pdf" imageSample] intEmbed "consulta" 5
    "image" _ (List.mem_singleton_self _)

/-- C9: for every non-empty extracted grid, the generated description
states the number of grid rows excluding the header row and the column
count, lists at most the first 5 column names, and appends the truncation
marker exactly when the grid has more than 5 columns. -/
theorem table_description_matches_grid (grid : List (List String)) :
    describeGrid grid = claimedGridDescription grid := by
  cases grid with
  | nil => rfl
  | cons hdr rest => rfl

